import Mathlib

/-!
Shallow embedding of `src/streamlit-dashboard.py`, a Streamlit dashboard that
polls a remote HTTP API for token metrics, caches the snapshot with a
time-based staleness check, formats/styles the table cells, and offers
add/delete mutation actions.

Modelling conventions:
* Python numeric cell values are modelled as exact rationals (`Rat`); the
  dashboard's claims concern decimal formatting and threshold comparisons,
  which the float values of interest represent exactly.
* A cell value (as it arrives from JSON via pandas) is `Val`: `None`, NaN,
  a number, or a string.
* `st.error` calls are modelled as messages collected in a returned list;
  Python exceptions raised by library calls are modelled as explicit
  outcome constructors, so the `try/except` structure becomes a `match`.
* All Lean functions are total, which mirrors the source's intent that no
  render cycle ever crashes.
-/

namespace Dashboard

/-- A raw cell value as the dashboard receives it from the API / pandas. -/
inductive Val where
  | vNone : Val
  | vNaN : Val
  | vNum : Rat → Val
  | vStr : String → Val
deriving DecidableEq

/-- `val is None or pd.isna(val)`: true exactly for `None` and NaN.
(`pd.isna` is `False` on strings and ordinary numbers.) -/
def isMissing : Val → Bool
  | .vNone => true
  | .vNaN => true
  | .vNum _ => false
  | .vStr _ => false

/-- Digit value of a character, `none` for non-digits. -/
def digitVal (c : Char) : Option Nat :=
  if c.isDigit then some (c.toNat - 48) else none

/-- Accumulate a decimal digit string into a `Nat` (empty input gives 0). -/
def parseDigits (cs : List Char) : Option Nat :=
  cs.foldlM (fun acc c => (digitVal c).map (fun d => acc * 10 + d)) 0

/-- Unsigned decimal literal: `digits`, `digits.digits`, `digits.` or
`.digits`; anything else fails. -/
def parseDecimal (cs : List Char) : Option Rat :=
  let intPart := cs.takeWhile Char.isDigit
  let rest := cs.dropWhile Char.isDigit
  match rest with
  | [] =>
    if intPart.isEmpty then none
    else (parseDigits intPart).map (fun n => (n : Rat))
  | '.' :: frac =>
    if frac.all Char.isDigit then
      if intPart.isEmpty && frac.isEmpty then none
      else
        match parseDigits intPart, parseDigits frac with
        | some i, some f => some (mkRat (i * 10 ^ frac.length + f) (10 ^ frac.length))
        | _, _ => none
    else none
  | _ => none

/-- Strip leading and trailing whitespace, as Python's `float` does before
parsing a string. -/
def pyStrip (cs : List Char) : List Char :=
  ((cs.dropWhile Char.isWhitespace).reverse.dropWhile Char.isWhitespace).reverse

/-- Python's `float(s)` on a string, modelled for the decimal-literal subset
the dashboard's numeric cells use (optional surrounding whitespace, optional
sign, digits with an optional decimal point).  Strings outside this subset
fail to parse, which in the source raises `ValueError`. -/
def pyFloat? (s : String) : Option Rat :=
  match pyStrip s.toList with
  | '-' :: rest => (parseDecimal rest).map (fun q => -q)
  | '+' :: rest => parseDecimal rest
  | cs => parseDecimal cs

/-- Python's `float(val)` on a non-missing cell value: numbers convert
directly, strings go through the float parser.  (For `None`/NaN the source
functions return before ever calling `float`; `none` here stands for the
raised `TypeError`/`ValueError`.) -/
def toFloat? : Val → Option Rat
  | .vNum q => some q
  | .vStr s => pyFloat? s
  | .vNone => none
  | .vNaN => none

/-- Left-pad the decimal digits of `n` with zeros to width `len`. -/
def zeroPad (len : Nat) (n : Nat) : String :=
  let s := toString n
  String.mk (List.replicate (len - s.length) '0') ++ s

/-- Round `num / den` to the nearest integer, ties to even
(the rounding Python's fixed-point float formatting uses). -/
def roundHalfEvenNat (num den : Nat) : Nat :=
  let q := num / den
  let r := num % den
  if 2 * r < den then q
  else if den < 2 * r then q + 1
  else if q % 2 = 0 then q else q + 1

/-- The unsigned part of Python's fixed-point formatting of `|x|` with
`prec` digits after the decimal point. -/
def fixedDigits (prec : Nat) (x : Rat) : String :=
  let m := roundHalfEvenNat (x.num.natAbs * 10 ^ prec) x.den
  toString (m / 10 ^ prec) ++ "." ++ zeroPad prec (m % 10 ^ prec)

/-- Python format spec with precision but no sign option, as in a
format-call of a two-decimal spec: minus sign only for negatives. -/
def formatFixed (prec : Nat) (x : Rat) : String :=
  (if x < 0 then "-" else "") ++ fixedDigits prec x

/-- Python format spec with the explicit-sign option, as in a signed
two-decimal spec: every value carries a `+` or `-`. -/
def signedFixed (prec : Nat) (x : Rat) : String :=
  (if x < 0 then "-" else "+") ++ fixedDigits prec x

/-- `safe_format_number(val, format_string)`: `N/A` for `None`/NaN, then
try `float(val)` and format, catching `ValueError`/`TypeError` as `N/A`.
The Python format string becomes the function `fmt`. -/
def safe_format_number (val : Val) (fmt : Rat → String) : String :=
  if isMissing val then "N/A"
  else
    match toFloat? val with
    | some q => fmt q
    | none => "N/A"

/-- A parsed timestamp (what `pd.to_datetime` yields on success). -/
structure PyDateTime where
  year : Nat
  month : Nat
  day : Nat
  hour : Nat
  minute : Nat
  second : Nat
deriving DecidableEq

/-- Split a character list at every occurrence of the separator
(the splitting the source's datetime pattern needs). -/
def splitOnChar (sep : Char) : List Char → List (List Char)
  | [] => [[]]
  | c :: rest =>
    if c = sep then [] :: splitOnChar sep rest
    else
      match splitOnChar sep rest with
      | [] => [[c]]
      | g :: gs => (c :: g) :: gs

/-- Parse a fixed-width all-digit field. -/
def parseField (cs : List Char) (len : Nat) : Option Nat :=
  if cs.length = len && cs.all Char.isDigit then parseDigits cs else none

/-- `pd.to_datetime(val)`, modelled for the ISO `YYYY-MM-DD HH:MM:SS`
string form the dashboard's `last_update` values take; inputs outside this
subset are the ones on which the source's `except` branch fires. -/
def pdToDatetime? (v : Val) : Option PyDateTime :=
  match v with
  | .vStr s =>
    match splitOnChar ' ' s.toList with
    | [d, t] =>
      match splitOnChar '-' d, splitOnChar ':' t with
      | [ys, mos, das], [hs, mis, ses] =>
        match parseField ys 4, parseField mos 2, parseField das 2,
              parseField hs 2, parseField mis 2, parseField ses 2 with
        | some y, some mo, some da, some h, some mi, some se =>
          if 1 ≤ mo && mo ≤ 12 && 1 ≤ da && da ≤ 31 && h < 24 && mi < 60 && se < 60 then
            some ⟨y, mo, da, h, mi, se⟩
          else none
        | _, _, _, _, _, _ => none
      | _, _ => none
    | _ => none
  | _ => none

/-- `strftime` of the fixed pattern in the source: year-month-day
hour:minute:second, zero padded. -/
def strftimeYmdHMS (dt : PyDateTime) : String :=
  zeroPad 4 dt.year ++ "-" ++ zeroPad 2 dt.month ++ "-" ++ zeroPad 2 dt.day ++ " " ++
    zeroPad 2 dt.hour ++ ":" ++ zeroPad 2 dt.minute ++ ":" ++ zeroPad 2 dt.second

/-- `safe_format_datetime(val)`: `N/A` for `None`/NaN, then try
`pd.to_datetime(val).strftime(...)`, catching any failure as `N/A`. -/
def safe_format_datetime (val : Val) : String :=
  if isMissing val then "N/A"
  else
    match pdToDatetime? val with
    | some dt => strftimeYmdHMS dt
    | none => "N/A"

/-- `style_rsi(val)`: empty style for missing/unparseable; red background
at 70 and above, orange background at 60 and above, else empty. -/
def style_rsi (val : Val) : String :=
  if isMissing val then ""
  else
    match toFloat? val with
    | some q =>
      if q ≥ 70 then "background-color: #ff7f7f"
      else if q ≥ 60 then "background-color: #ffb07f"
      else ""
    | none => ""

/-- `style_price_change(val)`: empty style for missing/unparseable; green
text for positive, red text for negative, else empty. -/
def style_price_change (val : Val) : String :=
  if isMissing val then ""
  else
    match toFloat? val with
    | some q =>
      if q > 0 then "color: #00ff00"
      else if q < 0 then "color: #ff0000"
      else ""
    | none => ""

/-- `format_currency(val)`: `safe_format_number` with the dollar-prefixed
four-decimal fixed-point spec. -/
def format_currency (val : Val) : String :=
  safe_format_number val (fun q => "$" ++ formatFixed 4 q)

/-- `format_percentage(val)`: `safe_format_number` with the explicitly
signed two-decimal spec followed by a percent sign. -/
def format_percentage (val : Val) : String :=
  safe_format_number val (fun q => signedFixed 2 q ++ "%")

/-- `format_decimal(val)`: `safe_format_number` with the plain two-decimal
fixed-point spec. -/
def format_decimal (val : Val) : String :=
  safe_format_number val (formatFixed 2)

/-! ## The token table

`pd.DataFrame` is modelled as a column list plus rows of cells aligned
with it; a fetched JSON record (Python dict) is an association list. -/

/-- A fetched JSON record: field names with their values. -/
abbrev Row := List (String × Val)

/-- The value a record supplies for a field; pandas fills NaN when a
record lacks a key other records have. -/
def rowGet (r : Row) (c : String) : Val :=
  (r.lookup c).getD .vNaN

/-- Keep the first occurrence of every name, preserving order. -/
def dedupFirst (seen : List String) : List String → List String
  | [] => []
  | c :: rest =>
    if seen.contains c then dedupFirst seen rest
    else c :: dedupFirst (c :: seen) rest

/-- Column list of `pd.DataFrame(records)`: the record keys in order of
first appearance. -/
def collectCols (records : List Row) : List String :=
  dedupFirst [] (records.map (fun r => r.map Prod.fst)).flatten

/-- The dashboard's in-memory table: column names and rows of cells
aligned with them. -/
structure DataFrame where
  cols : List String
  cells : List (List Val)
deriving DecidableEq

/-- `pd.DataFrame()`: the empty frame `init_session_state` stores. -/
def DataFrame.emptyFrame : DataFrame := ⟨[], []⟩

/-- `df.empty` in pandas: no rows and no columns means empty (the
dashboard only ever displays when this is false). -/
def DataFrame.isEmptyFrame (df : DataFrame) : Bool :=
  df.cells.isEmpty

/-- `pd.DataFrame(records)` for a list of JSON objects. -/
def mkDataFrame (records : List Row) : DataFrame :=
  let cols := collectCols records
  ⟨cols, records.map (fun r => cols.map (rowGet r))⟩

/-- Python `list.insert(-1, x)`: insert just before the last element. -/
def insertBeforeLast (l : List String) (x : String) : List String :=
  l.take (l.length - 1) ++ x :: l.drop (l.length - 1)

/-- The substring test of line 215 (`'rsi_' in str(col)`). -/
def containsRsiMark (c : String) : Bool :=
  c.toList.tails.any (fun t => ['r', 's', 'i', '_'].isPrefixOf t)

/-- Lines 208-219 of `main`: the `required_columns` list — the fixed base
columns, with `rsi_1m` and then `rsi_1h` each inserted before
`last_update` when present among the fetched columns. -/
def requiredColumns (cols : List String) : List String :=
  let base := ["token_name", "token_address", "current_price",
    "price_change_30m", "price_change_24h", "last_update"]
  if cols.any containsRsiMark then
    let b1 := if cols.contains "rsi_1m" then insertBeforeLast base "rsi_1m" else base
    if cols.contains "rsi_1h" then insertBeforeLast b1 "rsi_1h" else b1
  else base

/-- The cell of column `target` in a row aligned with `cols` (`df[col]`
row access; the NaN default is unreachable once every required column has
been added). -/
def cellAt : List String → List Val → String → Val
  | [], _, _ => .vNaN
  | _ :: _, [], _ => .vNaN
  | c :: cs, v :: vs, target => if c = target then v else cellAt cs vs target

/-- Lines 222-224 of `main`: append each required column that is absent,
filled with `None` in every row. -/
def addMissing (df : DataFrame) : List String → DataFrame
  | [] => df
  | c :: rest =>
    if df.cols.contains c then addMissing df rest
    else addMissing ⟨df.cols ++ [c], df.cells.map (fun row => row ++ [Val.vNone])⟩ rest

/-- Line 227 of `main`: `df = df[required_columns]` — select the required
columns in their order. -/
def selectCols (df : DataFrame) (req : List String) : DataFrame :=
  ⟨req, df.cells.map (fun row => req.map (cellAt df.cols row))⟩

/-- Lines 206-227 of `main`: build the frame from the fetched records,
compute the required columns, add the missing ones as `None`, reorder. -/
def normalize (records : List Row) : DataFrame :=
  let df := mkDataFrame records
  let req := requiredColumns df.cols
  selectCols (addMissing df req) req

/-! ## Session state and the refresh cycle -/

/-- `REFRESH_INTERVAL = 60` seconds. -/
def REFRESH_INTERVAL : Rat := 60

/-- `st.session_state`: the fetch timestamp and the cached snapshot.
Times are exact rationals standing in for Python's float `time.time()`. -/
structure SessionState where
  last_refresh : Rat
  data : DataFrame
deriving DecidableEq

/-- `init_session_state()` on a fresh session: timestamp 0, empty frame. -/
def init_session_state : SessionState :=
  ⟨0, DataFrame.emptyFrame⟩

/-- What `requests.get` plus `.json()` can do inside `load_token_data`: a
response with a status code (and the token list its body holds), or a
raised exception (network or parse failure). -/
inductive HttpResponse where
  | resp (status : Nat) (tokens : List Row)
  | exn (msg : String)
deriving DecidableEq

/-- `load_token_data()`: the token list on HTTP 200; otherwise an empty
list, plus the `st.error` messages the call shows. -/
def load_token_data (r : HttpResponse) : List Row × List String :=
  match r with
  | .resp status toks =>
    if status = 200 then (toks, [])
    else ([], ["Failed to fetch token data: " ++ toString status])
  | .exn e => ([], ["Error loading data: " ++ e])

/-- Lines 201-232 of `main`: one render cycle's refresh decision.  Returns
the session state after the cycle, the error messages shown, and whether
the fetch was invoked.  A total function: no failure path crashes. -/
def refreshStep (current_time : Rat) (r : HttpResponse) (st : SessionState) :
    SessionState × List String × Bool :=
  if REFRESH_INTERVAL ≤ current_time - st.last_refresh then
    let fetched := load_token_data r
    if fetched.1.isEmpty then (st, fetched.2, true)
    else (⟨current_time, normalize fetched.1⟩, fetched.2, true)
  else (st, [], false)

/-- Line 234 of `main`: the frame the display section receives. -/
def displayedData (current_time : Rat) (r : HttpResponse) (st : SessionState) : DataFrame :=
  (refreshStep current_time r st).1.data

/-- The column-shape invariant of the cached snapshot: it is the initial
empty frame, or the normalization of some non-empty fetched record
list. -/
def goodSnapshot (df : DataFrame) : Prop :=
  df = DataFrame.emptyFrame ∨ ∃ records, records ≠ [] ∧ df = normalize records

/-! ## Mutation actions -/

/-- What a mutation HTTP call can do: return a status code, or raise. -/
inductive HttpResult where
  | status (code : Nat)
  | exn (msg : String)
deriving DecidableEq

/-- `add_token(name, address)`: true exactly on HTTP 201; an exception is
caught, shows an error, and yields false.  The second component is the
`st.error` messages shown inside the function. -/
def add_token (name address : String) (r : HttpResult) : Bool × List String :=
  match r with
  | .status code => (code == 201, [])
  | .exn e => (false, ["Error adding token: " ++ e])

/-- `delete_token(address)`: true exactly on HTTP 200; an exception is
caught, shows an error, and yields false. -/
def delete_token (address : String) (r : HttpResult) : Bool × List String :=
  match r with
  | .status code => (code == 200, [])
  | .exn e => (false, ["Error deleting token: " ++ e])

/-- A PUT request as the toggle-active action issues it. -/
structure PutRequest where
  path : String
  active : Bool
deriving DecidableEq

/-- Modelled from the spec: no toggle-active function exists in
`src/streamlit-dashboard.py`; the spec (sections 4.3 and 6) attributes one
to other revisions of the dashboard — a single synchronous
`PUT /tokens/(address)` call carrying the desired boolean, succeeding
exactly on status 200, fire-and-forget with no retry.  The first
component lists the requests issued. -/
def toggle_token (address : String) (active : Bool) (r : HttpResult) :
    List PutRequest × Bool :=
  ([⟨"/tokens/" ++ address, active⟩],
    match r with
    | .status code => code == 200
    | .exn _ => false)

/-- The two text inputs of the Add New Token form. -/
structure FormState where
  token_name : String
  token_address : String
deriving DecidableEq

/-- Lines 192-198 of `main`: the Add Token button handler.  Neither branch
writes the session state or the form fields; the handler only adds a
success or failure message (and reruns on success). -/
def addButtonFlow (form : FormState) (r : HttpResult) (st : SessionState) :
    SessionState × FormState × List String :=
  let res := add_token form.token_name form.token_address r
  if res.1 then (st, form, res.2 ++ ["Added " ++ form.token_name])
  else (st, form, res.2 ++ ["Failed to add token"])

/-- Lines 259-265 of `main`: the per-row Delete button handler.  Neither
branch writes the session state; only messages are added. -/
def deleteButtonFlow (address : String) (r : HttpResult) (st : SessionState) :
    SessionState × List String :=
  let res := delete_token address r
  if res.1 then (st, res.2 ++ ["Removed"])
  else (st, res.2 ++ ["Failed to delete token"])

/-! ## Claims C4-C7: formatting and styling -/

/-- C4: the cell formatters are total functions into `String` (so every
input, including `None`, NaN and unparseable strings, yields a string and
no exception escapes); missing or unparseable values render exactly as
`N/A` and get the empty style from both style functions; and every
non-`N/A` output arises from a successfully parsed value. -/
theorem formatting_total_na (v : Val) (fmt : Rat → String) :
    ((isMissing v = true ∨ toFloat? v = none) →
      safe_format_number v fmt = "N/A" ∧ style_rsi v = "" ∧ style_price_change v = "") ∧
    ((isMissing v = true ∨ pdToDatetime? v = none) → safe_format_datetime v = "N/A") ∧
    (safe_format_number v fmt = "N/A" ∨
      ∃ q, toFloat? v = some q ∧ safe_format_number v fmt = fmt q) ∧
    (safe_format_datetime v = "N/A" ∨
      ∃ dt, pdToDatetime? v = some dt ∧ safe_format_datetime v = strftimeYmdHMS dt) := by
  refine ⟨?_, ?_, ?_, ?_⟩
  · rintro (hm | hp)
    · simp [safe_format_number, style_rsi, style_price_change, hm]
    · cases hm : isMissing v <;>
        simp [safe_format_number, style_rsi, style_price_change, hm, hp]
  · rintro (hm | hp)
    · simp [safe_format_datetime, hm]
    · cases hm : isMissing v <;> simp [safe_format_datetime, hm, hp]
  · cases hm : isMissing v
    · cases hp : toFloat? v with
      | none => exact Or.inl (by simp [safe_format_number, hm, hp])
      | some q => exact Or.inr ⟨q, rfl, by simp [safe_format_number, hm, hp]⟩
    · exact Or.inl (by simp [safe_format_number, hm])
  · cases hm : isMissing v
    · cases hp : pdToDatetime? v with
      | none => exact Or.inl (by simp [safe_format_datetime, hm, hp])
      | some dt => exact Or.inr ⟨dt, rfl, by simp [safe_format_datetime, hm, hp]⟩
    · exact Or.inl (by simp [safe_format_datetime, hm])

/-- Witness for C4 at the unparseable string `abc`. -/
theorem formatting_total_na_witness :
    (isMissing (Val.vStr "abc") = true ∨ toFloat? (Val.vStr "abc") = none) ∧
    safe_format_number (Val.vStr "abc") (formatFixed 2) = "N/A" ∧
    style_rsi (Val.vStr "abc") = "" ∧ style_price_change (Val.vStr "abc") = "" :=
  ⟨Or.inr (by decide),
    (formatting_total_na (Val.vStr "abc") (formatFixed 2)).1 (Or.inr (by decide))⟩

/-- C5: a parseable numeric price is rendered as the dollar-prefixed
fixed-point string with four decimal places; in particular 1234.5 becomes
the four-decimal dollar string of the spec's example. -/
theorem format_currency_four_decimals :
    (∀ v q, toFloat? v = some q → isMissing v = false →
      format_currency v = "$" ++ formatFixed 4 q) ∧
    format_currency (Val.vNum (mkRat 12345 10)) = "$1234.5000" := by
  constructor
  · intro v q hq hm
    simp [format_currency, safe_format_number, hm, hq]
  · decide

/-- Witness for C5 at the value 5. -/
theorem format_currency_four_decimals_witness :
    toFloat? (Val.vNum 5) = some 5 ∧ isMissing (Val.vNum 5) = false ∧
    format_currency (Val.vNum 5) = "$" ++ formatFixed 4 5 :=
  ⟨rfl, rfl, format_currency_four_decimals.1 (Val.vNum 5) 5 rfl rfl⟩

/-- C6: a parseable RSI value is displayed with exactly two decimals, and
its background escalates at the two thresholds — red band at 70 and
above, orange band between 60 and 70, no styling below 60; in particular
75 lands in the high band, 65 in the mid band, and 40 renders unstyled as
`40.00`. -/
theorem rsi_format_and_bands :
    (∀ v q, toFloat? v = some q → isMissing v = false →
      format_decimal v = formatFixed 2 q ∧
      (70 ≤ q → style_rsi v = "background-color: #ff7f7f") ∧
      (60 ≤ q → q < 70 → style_rsi v = "background-color: #ffb07f") ∧
      (q < 60 → style_rsi v = "")) ∧
    style_rsi (Val.vNum 75) = "background-color: #ff7f7f" ∧
    style_rsi (Val.vNum 65) = "background-color: #ffb07f" ∧
    style_rsi (Val.vNum 40) = "" ∧
    format_decimal (Val.vNum 40) = "40.00" := by
  refine ⟨?_, by decide, by decide, by decide, by decide⟩
  intro v q hq hm
  refine ⟨by simp [format_decimal, safe_format_number, hm, hq], ?_, ?_, ?_⟩
  · intro h70
    simp [style_rsi, hm, hq, ge_iff_le, h70]
  · intro h60 hlt
    simp [style_rsi, hm, hq, ge_iff_le, h60, not_le.mpr hlt]
  · intro hlt
    simp [style_rsi, hm, hq, ge_iff_le,
      not_le.mpr hlt, not_le.mpr (lt_trans hlt (by norm_num : (60 : Rat) < 70))]

/-- Witness for C6 at the value 75. -/
theorem rsi_format_and_bands_witness :
    toFloat? (Val.vNum 75) = some 75 ∧ isMissing (Val.vNum 75) = false ∧
    (70 : Rat) ≤ 75 ∧ style_rsi (Val.vNum 75) = "background-color: #ff7f7f" :=
  ⟨rfl, rfl, by norm_num,
    ((rsi_format_and_bands.1 (Val.vNum 75) 75 rfl rfl).2.1 (by norm_num))⟩

/-- C7: a parseable percentage change is displayed as an explicitly signed
two-decimal percent string, and its text color is green for positive, red
for negative, and absent at zero. -/
theorem price_change_format_and_colors :
    (∀ v q, toFloat? v = some q → isMissing v = false →
      format_percentage v = (if q < 0 then "-" else "+") ++ (fixedDigits 2 q ++ "%") ∧
      (0 < q → style_price_change v = "color: #00ff00") ∧
      (q < 0 → style_price_change v = "color: #ff0000") ∧
      (q = 0 → style_price_change v = "")) ∧
    format_percentage (Val.vNum (mkRat 25 10)) = "+2.50%" ∧
    format_percentage (Val.vNum (mkRat (-25) 10)) = "-2.50%" ∧
    style_price_change (Val.vNum 3) = "color: #00ff00" ∧
    style_price_change (Val.vNum (-3)) = "color: #ff0000" ∧
    style_price_change (Val.vNum 0) = "" := by
  refine ⟨?_, by decide, by decide, by decide, by decide, by decide⟩
  intro v q hq hm
  refine ⟨?_, ?_, ?_, ?_⟩
  · simp [format_percentage, safe_format_number, hm, hq, signedFixed,
      String.append_assoc]
  · intro hpos
    simp [style_price_change, hm, hq, hpos]
  · intro hneg
    simp [style_price_change, hm, hq, hneg, not_lt.mpr (le_of_lt hneg)]
  · intro h0
    simp [style_price_change, hm, hq, h0]

/-- Witness for C7 at the value 3. -/
theorem price_change_format_and_colors_witness :
    toFloat? (Val.vNum 3) = some 3 ∧ isMissing (Val.vNum 3) = false ∧
    (0 : Rat) < 3 ∧ style_price_change (Val.vNum 3) = "color: #00ff00" :=
  ⟨rfl, rfl, by norm_num,
    ((price_change_format_and_colors.1 (Val.vNum 3) 3 rfl rfl).2.1 (by norm_num))⟩

/-! ## Claims C1, C2, C9: the polling cache -/

/-- C1: while less than 60 seconds have elapsed since the last recorded
fetch, the fetch is not invoked and the displayed frame is exactly the
cached snapshot, whatever the remote would have answered; once 60 seconds
have elapsed the fetch is invoked, and a successful non-empty answer
replaces the snapshot (and the timestamp). -/
theorem stale_cache_refresh (t : Rat) (r : HttpResponse) (st : SessionState) :
    (t - st.last_refresh < REFRESH_INTERVAL →
      (refreshStep t r st).2.2 = false ∧
      displayedData t r st = st.data ∧
      (refreshStep t r st).1 = st) ∧
    (REFRESH_INTERVAL ≤ t - st.last_refresh →
      (refreshStep t r st).2.2 = true ∧
      ∀ toks, r = .resp 200 toks → toks ≠ [] →
        (refreshStep t r st).1.data = normalize toks ∧
        (refreshStep t r st).1.last_refresh = t) := by
  constructor
  · intro hlt
    have h : ¬ REFRESH_INTERVAL ≤ t - st.last_refresh := not_le.mpr hlt
    simp [refreshStep, displayedData, h]
  · intro hdue
    constructor
    · simp only [refreshStep, if_pos hdue]
      split <;> rfl
    · rintro toks rfl hne
      have hE : toks.isEmpty = false := by
        cases toks with
        | nil => exact absurd rfl hne
        | cons a l => rfl
      simp [refreshStep, displayedData, if_pos hdue, load_token_data, hE]

/-- Witness for C1: a cycle 30 seconds after a fetch reuses the cache. -/
theorem stale_cache_refresh_witness :
    (30 : Rat) - (⟨0, DataFrame.emptyFrame⟩ : SessionState).last_refresh < REFRESH_INTERVAL ∧
    (refreshStep 30 (.resp 200 [[("token_name", Val.vStr "T")]])
      ⟨0, DataFrame.emptyFrame⟩).2.2 = false :=
  ⟨by norm_num [REFRESH_INTERVAL],
    ((stale_cache_refresh 30 (.resp 200 [[("token_name", Val.vStr "T")]])
      ⟨0, DataFrame.emptyFrame⟩).1 (by norm_num [REFRESH_INTERVAL])).1⟩

/-- C2: a failing fetch — a raised exception or a non-200 status — is
caught (the step is a total function, so nothing crashes), produces a
user-visible error message, and the cached snapshot is retained unchanged
rather than cleared. -/
theorem fetch_failure_keeps_cache (t : Rat) (r : HttpResponse) (st : SessionState)
    (hdue : REFRESH_INTERVAL ≤ t - st.last_refresh)
    (hfail : (∃ e, r = .exn e) ∨ ∃ s toks, r = .resp s toks ∧ s ≠ 200) :
    (refreshStep t r st).2.1 ≠ [] ∧
    (refreshStep t r st).1.data = st.data := by
  have hload : (load_token_data r).1 = [] ∧ (load_token_data r).2 ≠ [] := by
    rcases hfail with ⟨e, rfl⟩ | ⟨s, toks, rfl, hs⟩
    · simp [load_token_data]
    · simp [load_token_data, hs]
  have hE : (load_token_data r).1.isEmpty = true := by
    rw [hload.1]; rfl
  constructor
  · simpa [refreshStep, if_pos hdue, hE] using hload.2
  · simp [refreshStep, if_pos hdue, hE]

/-- Witness for C2: a 500 response 60 seconds in leaves the cache. -/
theorem fetch_failure_keeps_cache_witness :
    REFRESH_INTERVAL ≤ (60 : Rat) - (⟨0, DataFrame.emptyFrame⟩ : SessionState).last_refresh ∧
    (refreshStep 60 (.resp 500 []) ⟨0, DataFrame.emptyFrame⟩).1.data =
      (⟨0, DataFrame.emptyFrame⟩ : SessionState).data :=
  ⟨by norm_num [REFRESH_INTERVAL],
    (fetch_failure_keeps_cache 60 (.resp 500 []) ⟨0, DataFrame.emptyFrame⟩
      (by norm_num [REFRESH_INTERVAL])
      (Or.inr ⟨500, [], rfl, by norm_num⟩)).2⟩

/-- C9: a due refresh that yields no data — failure, or a successful but
empty token list — leaves the whole session state unchanged: snapshot and
fetch timestamp stay together, so every later cycle is immediately due
and retries the fetch instead of waiting out the interval. -/
theorem empty_fetch_retries_immediately (t : Rat) (r : HttpResponse) (st : SessionState)
    (hdue : REFRESH_INTERVAL ≤ t - st.last_refresh)
    (hempty : (load_token_data r).1 = []) :
    (refreshStep t r st).1 = st ∧
    (refreshStep t r st).2.2 = true ∧
    ∀ t' r', t ≤ t' →
      (refreshStep t' r' (refreshStep t r st).1).2.2 = true := by
  have hE : (load_token_data r).1.isEmpty = true := by rw [hempty]; rfl
  have hstep : (refreshStep t r st).1 = st := by
    simp [refreshStep, if_pos hdue, hE]
  refine ⟨hstep, by simp [refreshStep, if_pos hdue, hE], ?_⟩
  intro t' r' hle
  have hdue' : REFRESH_INTERVAL ≤ t' - st.last_refresh :=
    le_trans hdue (by linarith)
  rw [hstep]
  simp only [refreshStep, if_pos hdue']
  split <;> rfl

/-- Witness for C9: an empty 200 answer at time 60 retries at time 61. -/
theorem empty_fetch_retries_immediately_witness :
    REFRESH_INTERVAL ≤ (60 : Rat) - (⟨0, DataFrame.emptyFrame⟩ : SessionState).last_refresh ∧
    (load_token_data (.resp 200 [])).1 = [] ∧
    (refreshStep 60 (.resp 200 []) ⟨0, DataFrame.emptyFrame⟩).1 =
      (⟨0, DataFrame.emptyFrame⟩ : SessionState) :=
  ⟨by norm_num [REFRESH_INTERVAL], rfl,
    (empty_fetch_retries_immediately 60 (.resp 200 []) ⟨0, DataFrame.emptyFrame⟩
      (by norm_num [REFRESH_INTERVAL]) rfl).1⟩

/-! ## Claims C3, C8: mutation actions -/

/-- C3: the toggle-active action issues exactly one PUT request, keyed by
the token address and carrying the submitted boolean, and reports success
exactly when the single synchronous call returns status 200 — no retry,
since the request list always has length one. -/
theorem toggle_single_put (address : String) (active : Bool) (r : HttpResult) :
    (toggle_token address active r).1 = [⟨"/tokens/" ++ address, active⟩] ∧
    (toggle_token address active r).1.length = 1 ∧
    ((toggle_token address active r).2 = true ↔ r = .status 200) := by
  refine ⟨rfl, rfl, ?_⟩
  cases r with
  | status code => simp [toggle_token]
  | exn e => simp [toggle_token]

/-- C8: add succeeds exactly on status 201 and delete exactly on status
200; on an exception or any other status the operation reports failure,
the handler shows the failure message, and the session state and form
fields are left untouched (the handlers never write them). -/
theorem add_delete_status_contract (form : FormState) (address : String)
    (r : HttpResult) (st : SessionState) :
    ((add_token form.token_name form.token_address r).1 = true ↔ r = .status 201) ∧
    ((delete_token address r).1 = true ↔ r = .status 200) ∧
    ((add_token form.token_name form.token_address r).1 = false →
      (addButtonFlow form r st).1 = st ∧
      (addButtonFlow form r st).2.1 = form ∧
      "Failed to add token" ∈ (addButtonFlow form r st).2.2) ∧
    ((delete_token address r).1 = false →
      (deleteButtonFlow address r st).1 = st ∧
      "Failed to delete token" ∈ (deleteButtonFlow address r st).2) ∧
    (∀ e, r = .exn e →
      ("Error adding token: " ++ e) ∈ (add_token form.token_name form.token_address r).2 ∧
      ("Error deleting token: " ++ e) ∈ (delete_token address r).2) := by
  refine ⟨?_, ?_, ?_, ?_, ?_⟩
  · cases r with
    | status code => simp [add_token]
    | exn e => simp [add_token]
  · cases r with
    | status code => simp [delete_token]
    | exn e => simp [delete_token]
  · intro hfail
    simp [addButtonFlow, hfail]
  · intro hfail
    simp [deleteButtonFlow, hfail]
  · rintro e rfl
    simp [add_token, delete_token]

/-- Witness for C8: a 404 answer fails the add and leaves everything. -/
theorem add_delete_status_contract_witness :
    (add_token (FormState.mk "T" "0xA").token_name
      (FormState.mk "T" "0xA").token_address (.status 404)).1 = false ∧
    (addButtonFlow (FormState.mk "T" "0xA") (.status 404)
      ⟨0, DataFrame.emptyFrame⟩).1 = (⟨0, DataFrame.emptyFrame⟩ : SessionState) ∧
    "Failed to add token" ∈
      (addButtonFlow (FormState.mk "T" "0xA") (.status 404)
        ⟨0, DataFrame.emptyFrame⟩).2.2 :=
  ⟨rfl,
    ((add_delete_status_contract (FormState.mk "T" "0xA") "0xA" (.status 404)
      ⟨0, DataFrame.emptyFrame⟩).2.2.1 rfl).1,
    ((add_delete_status_contract (FormState.mk "T" "0xA") "0xA" (.status 404)
      ⟨0, DataFrame.emptyFrame⟩).2.2.1 rfl).2.2⟩

/-! ## Claim C10: the snapshot column invariant -/

/-- The four concrete shapes `required_columns` can take: the base list,
with `rsi_1m` and `rsi_1h` slotted in before `last_update` exactly when
fetched. -/
theorem requiredColumns_cases (cols : List String) :
    requiredColumns cols =
      if cols.contains "rsi_1m" then
        if cols.contains "rsi_1h" then
          ["token_name", "token_address", "current_price", "price_change_30m",
            "price_change_24h", "rsi_1m", "rsi_1h", "last_update"]
        else
          ["token_name", "token_address", "current_price", "price_change_30m",
            "price_change_24h", "rsi_1m", "last_update"]
      else
        if cols.contains "rsi_1h" then
          ["token_name", "token_address", "current_price", "price_change_30m",
            "price_change_24h", "rsi_1h", "last_update"]
        else
          ["token_name", "token_address", "current_price", "price_change_30m",
            "price_change_24h", "last_update"] := by
  have h1 : cols.contains "rsi_1m" = true → cols.any containsRsiMark = true := by
    intro h
    exact List.any_eq_true.mpr ⟨"rsi_1m", by simpa using h, by decide⟩
  have h2 : cols.contains "rsi_1h" = true → cols.any containsRsiMark = true := by
    intro h
    exact List.any_eq_true.mpr ⟨"rsi_1h", by simpa using h, by decide⟩
  unfold requiredColumns
  cases hmb : cols.contains "rsi_1m" <;> cases hhb : cols.contains "rsi_1h"
  · by_cases hany : cols.any containsRsiMark = true
    · rw [if_pos hany]
      decide
    · rw [if_neg hany]
      decide
  · rw [if_pos (h2 hhb)]
    decide
  · rw [if_pos (h1 hmb)]
    decide
  · rw [if_pos (h1 hmb)]
    decide

/-- Every row of a freshly built frame is aligned with its columns. -/
theorem mkDataFrame_row_length (records : List Row) :
    ∀ row ∈ (mkDataFrame records).cells, row.length = (mkDataFrame records).cols.length := by
  intro row hrow
  simp only [mkDataFrame, List.mem_map] at hrow
  obtain ⟨r, _, rfl⟩ := hrow
  simp [mkDataFrame]

/-- `addMissing` only appends: some list of new columns is added on the
right, every row gains that many `None` cells, and afterwards every
requested column is present. -/
theorem addMissing_extends (req : List String) (df : DataFrame) :
    ∃ extra : List String,
      (addMissing df req).cols = df.cols ++ extra ∧
      (addMissing df req).cells =
        df.cells.map (fun row => row ++ List.replicate extra.length Val.vNone) ∧
      (∀ c, c ∈ req → c ∈ (addMissing df req).cols) := by
  induction req generalizing df with
  | nil =>
    exact ⟨[], by simp [addMissing], by simp [addMissing], by simp⟩
  | cons c rest ih =>
    by_cases hc : df.cols.contains c = true
    · obtain ⟨extra, hcols, hcells, hmem⟩ := ih df
      refine ⟨extra, ?_, ?_, ?_⟩
      · simp only [addMissing, hc, if_true]
        exact hcols
      · simp only [addMissing, hc, if_true]
        exact hcells
      · intro x hx
        simp only [addMissing, hc, if_true]
        rcases List.mem_cons.mp hx with rfl | hx
        · rw [hcols]
          exact List.mem_append_left _ (by simpa using hc)
        · exact hmem x hx
    · obtain ⟨extra, hcols, hcells, hmem⟩ :=
        ih ⟨df.cols ++ [c], df.cells.map (fun row => row ++ [Val.vNone])⟩
      refine ⟨c :: extra, ?_, ?_, ?_⟩
      · simp only [addMissing, hc, if_false, Bool.false_eq_true]
        rw [hcols]
        simp
      · simp only [addMissing, hc, if_false, Bool.false_eq_true]
        rw [hcells]
        simp [List.map_map, Function.comp, List.replicate_succ, List.append_assoc]
      · intro x hx
        simp only [addMissing, hc, if_false, Bool.false_eq_true]
        rcases List.mem_cons.mp hx with rfl | hx
        · rw [hcols]
          exact List.mem_append_left _ (List.mem_append_right _ (by simp))
        · exact hmem x hx

/-- Looking a column up in an extended aligned row: inside the original
columns it reads the original row, past them it reads the padding. -/
theorem cellAt_append (cols : List String) (row : List Val) (ext : List String)
    (pad : List Val) (c : String) (hlen : row.length = cols.length) :
    cellAt (cols ++ ext) (row ++ pad) c =
      if c ∈ cols then cellAt cols row c else cellAt ext pad c := by
  induction cols generalizing row with
  | nil =>
    cases row with
    | nil => simp [cellAt]
    | cons v vs => simp at hlen
  | cons c0 cs ihc =>
    cases row with
    | nil => simp at hlen
    | cons v vs =>
      simp only [List.cons_append, cellAt, List.append_eq]
      by_cases h0 : c0 = c
      · subst h0
        simp [cellAt]
      · rw [if_neg h0, if_neg h0]
        rw [ihc vs (by simpa using hlen)]
        by_cases hmem : c ∈ cs
        · rw [if_pos hmem, if_pos (List.mem_cons_of_mem _ hmem)]
        · rw [if_neg hmem, if_neg ?_]
          intro hcc
          rcases List.mem_cons.mp hcc with rfl | h
          · exact h0 rfl
          · exact hmem h

/-- Looking any present column up in an all-equal padding row yields that
padding value. -/
theorem cellAt_replicate (ext : List String) (x : Val) (c : String) (hc : c ∈ ext) :
    cellAt ext (List.replicate ext.length x) c = x := by
  induction ext with
  | nil => cases hc
  | cons e es ih =>
    simp only [List.length_cons, List.replicate_succ, cellAt]
    by_cases h : e = c
    · rw [if_pos h]
    · rw [if_neg h]
      refine ih ?_
      rcases List.mem_cons.mp hc with rfl | h2
      · exact absurd rfl h
      · exact h2

/-- Reading a column of a row built by mapping over the column list gives
the mapped value of that column. -/
theorem cellAt_map (req : List String) (f : String → Val) (c : String) (hc : c ∈ req) :
    cellAt req (req.map f) c = f c := by
  induction req with
  | nil => cases hc
  | cons a rest ih =>
    simp only [List.map_cons, cellAt]
    by_cases h : a = c
    · subst h
      rw [if_pos rfl]
    · rw [if_neg h]
      refine ih ?_
      rcases List.mem_cons.mp hc with rfl | h2
      · exact absurd rfl h
      · exact h2

/-- C10: after a due, successful, non-empty fetch the snapshot is the
normalization of the fetched records; a normalized frame has exactly the
required columns in their fixed order — the RSI columns present exactly
when fetched — every row aligned with them, and each required column that
the fetched records lack filled with `None` throughout; and the
empty-or-normalized shape is an invariant of the session state every
displayed snapshot satisfies. -/
theorem snapshot_column_invariant :
    (∀ (t : Rat) (st : SessionState) (toks : List Row),
      REFRESH_INTERVAL ≤ t - st.last_refresh → toks ≠ [] →
      (refreshStep t (.resp 200 toks) st).1.data = normalize toks) ∧
    (∀ records : List Row,
      (normalize records).cols =
        (if (collectCols records).contains "rsi_1m" then
          if (collectCols records).contains "rsi_1h" then
            ["token_name", "token_address", "current_price", "price_change_30m",
              "price_change_24h", "rsi_1m", "rsi_1h", "last_update"]
          else
            ["token_name", "token_address", "current_price", "price_change_30m",
              "price_change_24h", "rsi_1m", "last_update"]
        else
          if (collectCols records).contains "rsi_1h" then
            ["token_name", "token_address", "current_price", "price_change_30m",
              "price_change_24h", "rsi_1h", "last_update"]
          else
            ["token_name", "token_address", "current_price", "price_change_30m",
              "price_change_24h", "last_update"]) ∧
      (∀ row ∈ (normalize records).cells,
        row.length = (normalize records).cols.length) ∧
      (∀ c, c ∈ (normalize records).cols →
        (collectCols records).contains c = false →
        ∀ row ∈ (normalize records).cells,
          cellAt (normalize records).cols row c = Val.vNone)) ∧
    goodSnapshot init_session_state.data ∧
    (∀ (t : Rat) (r : HttpResponse) (st : SessionState),
      goodSnapshot st.data → goodSnapshot (refreshStep t r st).1.data) := by
  refine ⟨?_, ?_, Or.inl rfl, ?_⟩
  · intro t st toks hdue hne
    have hE : toks.isEmpty = false := by
      cases toks with
      | nil => exact absurd rfl hne
      | cons a l => rfl
    simp [refreshStep, if_pos hdue, load_token_data, hE]
  · intro records
    refine ⟨?_, ?_, ?_⟩
    · rw [show (normalize records).cols = requiredColumns (collectCols records) from rfl,
        requiredColumns_cases]
    · intro row hrow
      simp only [normalize, selectCols, List.mem_map] at hrow
      obtain ⟨extRow, _, rfl⟩ := hrow
      simp [normalize, selectCols]
    · intro c hc hmiss row hrow
      obtain ⟨extra, hcols, hcells, hmem⟩ :=
        addMissing_extends (requiredColumns (mkDataFrame records).cols) (mkDataFrame records)
      simp only [normalize, selectCols, List.mem_map] at hrow
      obtain ⟨extRow, hext, rfl⟩ := hrow
      rw [hcells, List.mem_map] at hext
      obtain ⟨origRow, horig, rfl⟩ := hext
      have hc' : c ∈ requiredColumns (mkDataFrame records).cols := hc
      have hccols : c ∉ (mkDataFrame records).cols := by
        intro habs
        have hct : (collectCols records).contains c = true := by
          simpa using habs
        exact Bool.false_ne_true (hmiss.symm.trans hct)
      have hlen : origRow.length = (mkDataFrame records).cols.length :=
        mkDataFrame_row_length records origRow horig
      show cellAt (requiredColumns (mkDataFrame records).cols)
        (List.map
          (cellAt (addMissing (mkDataFrame records)
            (requiredColumns (mkDataFrame records).cols)).cols
            (origRow ++ List.replicate extra.length Val.vNone))
          (requiredColumns (mkDataFrame records).cols)) c = Val.vNone
      rw [cellAt_map _ _ _ hc']
      rw [hcols, cellAt_append _ _ _ _ _ hlen, if_neg hccols]
      have hcextra : c ∈ extra := by
        have hin := hmem c hc'
        rw [hcols] at hin
        rcases List.mem_append.mp hin with h | h
        · exact absurd h hccols
        · exact h
      exact cellAt_replicate extra Val.vNone c hcextra
  · intro t r st h
    by_cases hdue : REFRESH_INTERVAL ≤ t - st.last_refresh
    · by_cases hE : (load_token_data r).1.isEmpty = true
      · simpa [refreshStep, if_pos hdue, hE] using h
      · have hne : (load_token_data r).1 ≠ [] := by
          intro heq
          rw [heq] at hE
          exact hE rfl
        right
        refine ⟨(load_token_data r).1, hne, ?_⟩
        simp [refreshStep, if_pos hdue, hE]
    · simpa [refreshStep, if_neg hdue] using h

/-- Witness for C10 at a single fetched record holding only a name: the
absent `token_address` column is added and filled with `None`. -/
theorem snapshot_column_invariant_witness :
    "token_address" ∈ (normalize [[("token_name", Val.vStr "T")]]).cols ∧
    (collectCols [[("token_name", Val.vStr "T")]]).contains "token_address" = false ∧
    (normalize [[("token_name", Val.vStr "T")]]).cells.getD 0 [] ∈
      (normalize [[("token_name", Val.vStr "T")]]).cells ∧
    cellAt (normalize [[("token_name", Val.vStr "T")]]).cols
      ((normalize [[("token_name", Val.vStr "T")]]).cells.getD 0 [])
      "token_address" = Val.vNone :=
  ⟨by decide, by decide, by decide,
    (snapshot_column_invariant.2.1 [[("token_name", Val.vStr "T")]]).2.2
      "token_address" (by decide) (by decide) _ (by decide)⟩

end Dashboard

